import Mathlib

/-
Verification development for the seasonal platformer core
(src/Ava/fractured_forest.py).  Python floats are embedded as rationals,
pygame.Rect as a record of four integers, and the pygame event/key API as
small inductive types.  Randomized presentation-only state (particle system,
random template/seed sampling at run construction) is outside the embedded
step functions; the per-frame step is modeled exactly as the source's
event-handling + `_update_gameplay` sequence.
-/

namespace FracturedForest

/- pygame.Rect: integer position and size (top-left anchored). -/
structure Rect where
  x : ℤ
  y : ℤ
  w : ℤ
  h : ℤ
deriving DecidableEq

def Rect.top (r : Rect) : ℤ := r.y

def Rect.bottom (r : Rect) : ℤ := r.y + r.h

def Rect.leftEdge (r : Rect) : ℤ := r.x

def Rect.rightEdge (r : Rect) : ℤ := r.x + r.w

/- Assigning `rect.right = v` in pygame moves the rect so its right edge is v. -/
def Rect.setRight (r : Rect) (v : ℤ) : Rect := ⟨v - r.w, r.y, r.w, r.h⟩

def Rect.setLeft (r : Rect) (v : ℤ) : Rect := ⟨v, r.y, r.w, r.h⟩

def Rect.setTop (r : Rect) (v : ℤ) : Rect := ⟨r.x, v, r.w, r.h⟩

def Rect.setBottom (r : Rect) (v : ℤ) : Rect := ⟨r.x, v - r.h, r.w, r.h⟩

def Rect.moveX (r : Rect) (d : ℤ) : Rect := ⟨r.x + d, r.y, r.w, r.h⟩

def Rect.moveY (r : Rect) (d : ℤ) : Rect := ⟨r.x, r.y + d, r.w, r.h⟩

/- pygame.Rect.colliderect: strict overlap on both axes (all rects in the
game have positive width and height). -/
def collide (a b : Rect) : Bool :=
  decide (a.x < b.x + b.w) && decide (b.x < a.x + a.w) &&
  decide (a.y < b.y + b.h) && decide (b.y < a.y + a.h)

/- One axis of pygame.Rect.clamp: if the rect is at least as large as the
bounding rect it is centered, otherwise it is moved just inside the bounds. -/
def clampCoord (x w bx bw : ℤ) : ℤ :=
  if bw ≤ w then bx + bw / 2 - w / 2
  else if x < bx then bx
  else if bx + bw < x + w then bx + bw - w
  else x

def clampRect (r b : Rect) : Rect :=
  ⟨clampCoord r.x r.w b.x b.w, clampCoord r.y r.h b.y b.h, r.w, r.h⟩

def WIDTH : ℤ := 960

def HEIGHT : ℤ := 540

def GROUND_Y : ℤ := HEIGHT - 42

/- `Player.update` line 154: `self.rect.clamp_ip(pygame.Rect(0, -200, WIDTH, HEIGHT + 300))`. -/
def worldBand : Rect := ⟨0, -200, WIDTH, HEIGHT + 300⟩

/- The four seasons (source represents them as strings in SEASON_ORDER). -/
inductive Season where
  | spring
  | summer
  | autumn
  | winter
deriving DecidableEq

def SEASON_ORDER : List Season := [Season.spring, Season.summer, Season.autumn, Season.winter]

/- One step of the cyclic order Spring → Summer → Autumn → Winter → Spring. -/
def nextSeason : Season → Season
  | Season.spring => Season.summer
  | Season.summer => Season.autumn
  | Season.autumn => Season.winter
  | Season.winter => Season.spring

/- SeasonManager: current_index starts at 0, last_cycle_ms at -cooldown_ms. -/
structure SeasonManager where
  current_index : ℕ
  cooldown_ms : ℤ
  last_cycle_ms : ℤ
  flash_alpha : ℤ
deriving DecidableEq

def mkSeasonManager (cooldown : ℤ) : SeasonManager :=
  ⟨0, cooldown, -cooldown, 0⟩

/- `SeasonManager.current` property; index stays below 4 by construction. -/
def seasonCurrent (sm : SeasonManager) : Season :=
  SEASON_ORDER.getD sm.current_index Season.spring

def SeasonManager.can_cycle (sm : SeasonManager) (now_ms : ℤ) : Bool :=
  decide (sm.cooldown_ms ≤ now_ms - sm.last_cycle_ms)

/- `SeasonManager.cycle`: returns its bool result together with the new state. -/
def SeasonManager.cycle (sm : SeasonManager) (now_ms : ℤ) : Bool × SeasonManager :=
  if sm.can_cycle now_ms = true then
    (true, ⟨(sm.current_index + 1) % SEASON_ORDER.length, sm.cooldown_ms, now_ms, 170⟩)
  else (false, sm)

/- `SeasonManager.update`: decays the cosmetic flash value. -/
def seasonTick (sm : SeasonManager) : SeasonManager :=
  if 0 < sm.flash_alpha then ⟨sm.current_index, sm.cooldown_ms, sm.last_cycle_ms, max 0 (sm.flash_alpha - 8)⟩
  else sm

/- The modifiers dictionary built by `_seeds_to_modifiers` (all keys always present). -/
structure Modifiers where
  speed_mult : ℚ
  gravity_mult : ℚ
  jump_mult : ℚ
  water_drag_mult : ℚ
  wind_push : ℚ
  ice_slip : ℚ
  brittle_thorns : Bool
  slow_cycle : Bool
deriving DecidableEq

def modifierDefaults : Modifiers :=
  ⟨1, 1, 1, 1, 0.24, 1, false, false⟩

/- The per-seed branch of `_seeds_to_modifiers` (matching on the seed's name). -/
def seed_transform (m : Modifiers) (name : String) : Modifiers :=
  if name = "Swiftstride" then
    ⟨m.speed_mult * 1.2, m.gravity_mult, m.jump_mult, m.water_drag_mult, m.wind_push, m.ice_slip, m.brittle_thorns, m.slow_cycle⟩
  else if name = "Moonlight Bones" then
    ⟨m.speed_mult, m.gravity_mult * 0.82, m.jump_mult * 1.08, m.water_drag_mult, m.wind_push, m.ice_slip, m.brittle_thorns, m.slow_cycle⟩
  else if name = "Brittle Thorns" then
    ⟨m.speed_mult, m.gravity_mult, m.jump_mult, m.water_drag_mult, m.wind_push, m.ice_slip, true, m.slow_cycle⟩
  else if name = "Glacial Rhythm" then
    ⟨m.speed_mult, m.gravity_mult, m.jump_mult, m.water_drag_mult, m.wind_push, m.ice_slip, m.brittle_thorns, true⟩
  else if name = "Heavy Bloom" then
    ⟨m.speed_mult, m.gravity_mult, m.jump_mult, m.water_drag_mult * 0.75, m.wind_push, m.ice_slip, m.brittle_thorns, m.slow_cycle⟩
  else if name = "Tailwind" then
    ⟨m.speed_mult, m.gravity_mult, m.jump_mult, m.water_drag_mult, 0.45, m.ice_slip, m.brittle_thorns, m.slow_cycle⟩
  else m

/- `_seeds_to_modifiers`: fold the selected seeds over the identity defaults. -/
def seeds_to_modifiers (seeds : List String) : Modifiers :=
  seeds.foldl seed_transform modifierDefaults

/- One entry of `RoomChunk.seasonal_platforms`. -/
structure SeasonalPlatform where
  rect : Rect
  seasons : List Season
  kind : String
deriving DecidableEq

structure RoomChunk where
  base_platforms : List Rect
  seasonal_platforms : List SeasonalPlatform
  hazards : List Rect
  water : List Rect
  wind : List Rect
  exit_zone : Rect
deriving DecidableEq

/- `RoomChunk.active_platforms`: base, then the seasonal rects whose tag set
contains the season, then (in Winter) the water rects. -/
def RoomChunk.active_platforms (room : RoomChunk) (season : Season) : List Rect :=
  room.base_platforms
    ++ room.seasonal_platforms.filterMap (fun e => if season ∈ e.seasons then some e.rect else none)
    ++ (if season = Season.winter then room.water else [])

/- `RoomChunk.hazard_active` (does not read self). -/
def RoomChunk.hazard_active (_room : RoomChunk) (season : Season) (brittle_thorns : Bool) : Bool :=
  if season = Season.summer ∨ season = Season.autumn then true
  else if season = Season.spring ∧ brittle_thorns = true then true
  else false

/- Held movement keys: left stands for A-or-LEFT, right for D-or-RIGHT. -/
structure Keys where
  left : Bool
  right : Bool
deriving DecidableEq

/- Python's round (banker's rounding, halves to even) on an exact rational. -/
def pyround (q : ℚ) : ℤ :=
  let f : ℤ := Int.fdiv q.num (q.den : ℤ)
  if q - (f : ℚ) < 1 / 2 then f
  else if 1 / 2 < q - (f : ℚ) then f + 1
  else if f % 2 = 0 then f else f + 1

def base_speed : ℚ := 4.8

def base_jump : ℚ := 12.5

def base_gravity : ℚ := 0.58

def max_fall : ℚ := 15.0

structure Player where
  rect : Rect
  vel_x : ℚ
  vel_y : ℚ
  on_ground : Bool
deriving DecidableEq

/- `Player.reset(x, y)`. -/
def playerReset (nx ny : ℤ) (p : Player) : Player :=
  ⟨⟨nx, ny, p.rect.w, p.rect.h⟩, 0, 0, false⟩

/- `Player.update` lines 110-116: direction from opposing key pairs, times speed. -/
def intentVelX (keys : Keys) (mods : Modifiers) : ℚ :=
  (((if keys.left then (-1 : ℤ) else 0) + (if keys.right then 1 else 0) : ℤ) : ℚ)
    * (base_speed * mods.speed_mult)

/- Lines 118-121: water drag (the water test uses the pre-movement rect). -/
def waterApply (mods : Modifiers) (r : Rect) (water : List Rect) (season : Season) (v : ℚ) : ℚ :=
  if (water.any fun w => collide r w) = true ∧ (season = Season.spring ∨ season = Season.summer) then
    v * (0.45 * mods.water_drag_mult)
  else v

/- Lines 123-126: in Autumn each overlapped wind zone adds wind_push. -/
def windApply (mods : Modifiers) (r : Rect) (wind : List Rect) (season : Season) (v : ℚ) : ℚ :=
  if season = Season.autumn then
    wind.foldl (fun acc z => if collide r z = true then acc + mods.wind_push else acc) v
  else v

/- The horizontal velocity as of line 126, before any movement. -/
def preVelX (keys : Keys) (room : RoomChunk) (season : Season) (mods : Modifiers) (r : Rect) : ℚ :=
  windApply mods r room.wind season (waterApply mods r room.water season (intentVelX keys mods))

/- Line 128: gravity accumulates every frame, clamped to terminal fall speed. -/
def gravVelY (mods : Modifiers) (vy : ℚ) : ℚ :=
  min (vy + base_gravity * mods.gravity_mult) max_fall

/- Lines 131-136: one platform of the horizontal resolution loop. -/
def horizStep (vx : ℚ) (r : Rect) (pl : Rect) : Rect :=
  if collide r pl = true then
    if 0 < vx then r.setRight pl.leftEdge
    else if vx < 0 then r.setLeft pl.rightEdge
    else r
  else r

def horizResolve (vx : ℚ) (plats : List Rect) (r : Rect) : Rect :=
  plats.foldl (horizStep vx) r

/- Lines 140-148: one platform of the vertical resolution loop; the running
state is (rect, vel_y, on_ground). -/
def vertStep (s : Rect × ℚ × Bool) (pl : Rect) : Rect × ℚ × Bool :=
  if collide s.1 pl = true then
    if 0 < s.2.1 then (s.1.setBottom pl.top, 0, true)
    else if s.2.1 < 0 then (s.1.setTop pl.bottom, 0, s.2.2)
    else s
  else s

def vertResolve (plats : List Rect) (s : Rect × ℚ × Bool) : Rect × ℚ × Bool :=
  plats.foldl vertStep s

/- The rect after the horizontal pass and the vertical move (line 138),
entering the vertical resolution loop. -/
def Player.preVertRect (keys : Keys) (room : RoomChunk) (season : Season) (mods : Modifiers) (p : Player) : Rect :=
  Rect.moveY
    (horizResolve (preVelX keys room season mods p.rect) (room.active_platforms season)
      (Rect.moveX p.rect (pyround (preVelX keys room season mods p.rect))))
    (pyround (gravVelY mods p.vel_y))

/- The (rect, vel_y, on_ground) state after the vertical resolution loop. -/
def Player.updateVert (keys : Keys) (room : RoomChunk) (season : Season) (mods : Modifiers) (p : Player) : Rect × ℚ × Bool :=
  vertResolve (room.active_platforms season)
    (Player.preVertRect keys room season mods p, gravVelY mods p.vel_y, false)

/- `Player.update` (lines 105-155), returning the new player state and
jump_power.  Ice slip (lines 150-152) scales the line-126 velocity; the
water test reuses the pre-movement rect, exactly as in the source.  The final
rect is the clamp of line 154. -/
def Player.update (keys : Keys) (room : RoomChunk) (season : Season) (mods : Modifiers) (p : Player) : Player × ℚ :=
  (⟨clampRect (Player.updateVert keys room season mods p).1 worldBand,
    (if (room.water.any fun w => collide p.rect w) = true ∧ season = Season.winter then
       preVelX keys room season mods p.rect * (0.985 * mods.ice_slip)
     else preVelX keys room season mods p.rect),
    (Player.updateVert keys room season mods p).2.1,
    (Player.updateVert keys room season mods p).2.2⟩,
   base_jump * mods.jump_mult)

/- `self.state`: "playing" | "won" | "failed". -/
inductive GameStatus where
  | playing
  | won
  | failed
deriving DecidableEq

/- GameManager mutable fields relevant to the gameplay step.  The particle
list and the selected-seed list are presentation-only (and randomized), and
are not read by any embedded operation, so they are omitted. -/
structure GameState where
  status : GameStatus
  start_ms : ℤ
  end_ms : ℤ
  room_index : ℕ
  rooms : List RoomChunk
  current_room : RoomChunk
  season : SeasonManager
  player : Player
  modifiers : Modifiers
deriving DecidableEq

/- The player state produced by line 335's `self.player.update(...)`. -/
def updatedPlayer (keys : Keys) (gs : GameState) : Player :=
  (Player.update keys gs.current_room (seasonCurrent gs.season) gs.modifiers gs.player).1

/- `GameManager.fail_run`. -/
def failRun (now : ℤ) (gs : GameState) : GameState :=
  if gs.status = GameStatus.playing then
    ⟨GameStatus.failed, gs.start_ms, now, gs.room_index, gs.rooms, gs.current_room, gs.season, gs.player, gs.modifiers⟩
  else gs

/- `GameManager.advance_room` (the won branch records the end timestamp;
rooms index stays in range so getD's default is never used). -/
def advanceRoom (now : ℤ) (gs : GameState) : GameState :=
  if gs.rooms.length ≤ gs.room_index + 1 then
    ⟨GameStatus.won, gs.start_ms, now, gs.room_index + 1, gs.rooms, gs.current_room, gs.season, gs.player, gs.modifiers⟩
  else
    ⟨gs.status, gs.start_ms, gs.end_ms, gs.room_index + 1, gs.rooms,
     gs.rooms.getD (gs.room_index + 1) gs.current_room, gs.season, playerReset 70 420 gs.player, gs.modifiers⟩

/- `GameManager._update_gameplay` (particles omitted; the two fail branches
return before `season_manager.update()`, exactly as in the source). -/
def updateGameplay (keys : Keys) (now : ℤ) (gs : GameState) : GameState :=
  let p := updatedPlayer keys gs
  let gs1 : GameState := ⟨gs.status, gs.start_ms, gs.end_ms, gs.room_index, gs.rooms, gs.current_room, gs.season, p, gs.modifiers⟩
  if gs.current_room.hazard_active (seasonCurrent gs.season) gs.modifiers.brittle_thorns = true ∧
     (gs.current_room.hazards.any fun hz => collide p.rect hz) = true then failRun now gs1
  else if HEIGHT + 80 < p.rect.top then failRun now gs1
  else
    let gs2 := if collide p.rect gs.current_room.exit_zone = true then advanceRoom now gs1 else gs1
    ⟨gs2.status, gs2.start_ms, gs2.end_ms, gs2.room_index, gs2.rooms, gs2.current_room,
     seasonTick gs2.season, gs2.player, gs2.modifiers⟩

/- Keydown events relevant to `_handle_gameplay_input`. -/
inductive GKey where
  | kq
  | kspace
  | kother
deriving DecidableEq

inductive GEvent where
  | keydown (key : GKey)
  | other
deriving DecidableEq

/- `GameManager._handle_gameplay_input`: Q requests a season cycle; SPACE
while grounded sets vel_y to -(base_jump * jump_mult) (and touches nothing else). -/
def handleGameplayInput (e : GEvent) (now : ℤ) (gs : GameState) : GameState :=
  match e with
  | GEvent.keydown GKey.kq =>
      ⟨gs.status, gs.start_ms, gs.end_ms, gs.room_index, gs.rooms, gs.current_room,
       (gs.season.cycle now).2, gs.player, gs.modifiers⟩
  | GEvent.keydown GKey.kspace =>
      if gs.player.on_ground = true then
        ⟨gs.status, gs.start_ms, gs.end_ms, gs.room_index, gs.rooms, gs.current_room, gs.season,
         ⟨gs.player.rect, gs.player.vel_x, -(base_jump * gs.modifiers.jump_mult), gs.player.on_ground⟩,
         gs.modifiers⟩
      else gs
  | _ => gs

def stepFrameAux (keys : Keys) (now : ℤ) (gs : GameState) : GameState :=
  if gs.status = GameStatus.playing then updateGameplay keys now gs else gs

/- One iteration of `GameManager.run`'s loop body (drawing omitted; the
R-restart branch re-randomizes a fresh run and is the explicit restart that
the terminal-state claims exclude): gameplay input events are handled only
while playing, then `_update_gameplay` runs only while playing. -/
def stepFrame (events : List GEvent) (keys : Keys) (now : ℤ) (gs : GameState) : GameState :=
  stepFrameAux keys now
    (events.foldl (fun g e => if g.status = GameStatus.playing then handleGameplayInput e now g else g) gs)

/- Per-frame input for multi-frame physics runs: edge-triggered jump events
are handled before the physics step, as in the source's event loop. -/
structure FrameInput where
  keys : Keys
  jump : Bool
  room : RoomChunk
  season : Season
deriving DecidableEq

def stepWithInput (mods : Modifiers) (fi : FrameInput) (p : Player) : Player :=
  (Player.update fi.keys fi.room fi.season mods
    (if fi.jump = true ∧ p.on_ground = true then ⟨p.rect, p.vel_x, -(base_jump * mods.jump_mult), p.on_ground⟩ else p)).1

def runFrames (mods : Modifiers) (fis : List FrameInput) (p : Player) : Player :=
  fis.foldl (fun pp fi => stepWithInput mods fi pp) p

/- Concrete fixtures used by witness theorems. -/
def noKeys : Keys := ⟨false, false⟩

def wFloor : Rect := ⟨0, 498, 960, 50⟩

def wExit : Rect := ⟨90, 430, 44, 70⟩

def wRoom : RoomChunk := ⟨[wFloor], [], [], [], [], wExit⟩

def wIceEntry : SeasonalPlatform := ⟨⟨690, 270, 170, 16⟩, [Season.winter], "ice"⟩

def wRoomIce : RoomChunk := ⟨[wFloor], [wIceEntry], [], [], [], wExit⟩

def pGround : Player := ⟨⟨100, 446, 34, 52⟩, 0, 0, true⟩

def pFall : Player := ⟨⟨100, 445, 34, 52⟩, 0, 5, false⟩

def slipMods : Modifiers := ⟨1, 1, 1, 1, 0.24, 0.5, false, false⟩

/- A gravity-heavy modifier set that keeps all witness velocities integral. -/
def wrMods : Modifiers := ⟨1, 50, 1, 1, 0.24, 1, false, false⟩

def gsP : GameState :=
  ⟨GameStatus.playing, 0, 0, 0, [wRoom, wRoom], wRoom, mkSeasonManager 500, pGround, wrMods⟩

def wInput : FrameInput := ⟨noKeys, false, wRoom, Season.winter⟩

def gsW : GameState :=
  ⟨GameStatus.playing, 0, 0, 0, [wRoom, wRoom], wRoom, mkSeasonManager 500, pGround, modifierDefaults⟩

def gsWon : GameState :=
  ⟨GameStatus.won, 0, 0, 0, [wRoom], wRoom, mkSeasonManager 500, pGround, modifierDefaults⟩

/- Helper lemmas. -/

lemma seasonOrder_next (i : ℕ) (hi : i < 4) :
    SEASON_ORDER.getD ((i + 1) % 4) Season.spring = nextSeason (SEASON_ORDER.getD i Season.spring) := by
  interval_cases i <;> rfl

lemma modifiers_ext (x y : Modifiers)
    (h1 : x.speed_mult = y.speed_mult) (h2 : x.gravity_mult = y.gravity_mult)
    (h3 : x.jump_mult = y.jump_mult) (h4 : x.water_drag_mult = y.water_drag_mult)
    (h5 : x.wind_push = y.wind_push) (h6 : x.ice_slip = y.ice_slip)
    (h7 : x.brittle_thorns = y.brittle_thorns) (h8 : x.slow_cycle = y.slow_cycle) : x = y := by
  cases x; cases y; simp_all

lemma st_speed (m : Modifiers) (n : String) :
    (seed_transform m n).speed_mult = if n = "Swiftstride" then m.speed_mult * 1.2 else m.speed_mult := by
  unfold seed_transform; split_ifs <;> simp_all

lemma st_gravity (m : Modifiers) (n : String) :
    (seed_transform m n).gravity_mult = if n = "Moonlight Bones" then m.gravity_mult * 0.82 else m.gravity_mult := by
  unfold seed_transform; split_ifs <;> simp_all

lemma st_jump (m : Modifiers) (n : String) :
    (seed_transform m n).jump_mult = if n = "Moonlight Bones" then m.jump_mult * 1.08 else m.jump_mult := by
  unfold seed_transform; split_ifs <;> simp_all

lemma st_drag (m : Modifiers) (n : String) :
    (seed_transform m n).water_drag_mult = if n = "Heavy Bloom" then m.water_drag_mult * 0.75 else m.water_drag_mult := by
  unfold seed_transform; split_ifs <;> simp_all

lemma st_wind (m : Modifiers) (n : String) :
    (seed_transform m n).wind_push = if n = "Tailwind" then 0.45 else m.wind_push := by
  unfold seed_transform; split_ifs <;> simp_all

lemma st_slip (m : Modifiers) (n : String) : (seed_transform m n).ice_slip = m.ice_slip := by
  unfold seed_transform; split_ifs <;> simp_all

lemma st_brittle (m : Modifiers) (n : String) :
    (seed_transform m n).brittle_thorns = if n = "Brittle Thorns" then true else m.brittle_thorns := by
  unfold seed_transform; split_ifs <;> simp_all

lemma st_slow (m : Modifiers) (n : String) :
    (seed_transform m n).slow_cycle = if n = "Glacial Rhythm" then true else m.slow_cycle := by
  unfold seed_transform; split_ifs <;> simp_all

lemma seed_transform_comm (m : Modifiers) (a b : String) :
    seed_transform (seed_transform m a) b = seed_transform (seed_transform m b) a := by
  apply modifiers_ext <;>
    simp only [st_speed, st_gravity, st_jump, st_drag, st_wind, st_slip, st_brittle, st_slow] <;>
    split_ifs <;> rfl

lemma foldl_perm_of_comm {α β : Type} {f : β → α → β}
    (hf : ∀ m a b, f (f m a) b = f (f m b) a) :
    ∀ {l1 l2 : List α}, List.Perm l1 l2 → ∀ m : β, l1.foldl f m = l2.foldl f m := by
  intro l1 l2 hp
  induction hp with
  | nil => intro m; rfl
  | cons x _ ih => intro m; simp only [List.foldl_cons]; exact ih (f m x)
  | swap x y l => intro m; simp only [List.foldl_cons]; rw [hf]
  | trans _ _ ih1 ih2 => intro m; rw [ih1, ih2]

lemma seasonal_filter_mem (l : List SeasonalPlatform) (s : Season) (r : Rect) :
    r ∈ l.filterMap (fun e => if s ∈ e.seasons then some e.rect else none) ↔
      ∃ e, e ∈ l ∧ s ∈ e.seasons ∧ r = e.rect := by
  simp only [List.mem_filterMap]
  constructor
  · rintro ⟨e, he, hf⟩
    by_cases hs : s ∈ e.seasons
    · rw [if_pos hs] at hf
      exact ⟨e, he, hs, (Option.some.inj hf).symm⟩
    · rw [if_neg hs] at hf
      simp at hf
  · rintro ⟨e, he, hs, hr⟩
    exact ⟨e, he, by rw [if_pos hs, hr]⟩

lemma pyround_intCast (n : ℤ) : pyround ((n : ℚ)) = n := by
  unfold pyround
  rw [Rat.num_intCast, Rat.den_intCast]
  norm_num

/- On the witness room (no water, no wind) with no keys held, the
pre-movement horizontal velocity is zero. -/
lemma preVelX_wRoom (season : Season) (mods : Modifiers) (r : Rect) :
    preVelX noKeys wRoom season mods r = 0 := by
  cases season <;> simp [preVelX, windApply, waterApply, intentVelX, wRoom, noKeys]

/-- Claim C3: requestCycle(now) returns false and leaves the SeasonCycle state
unchanged when now - lastCycleTimestamp < cooldown; otherwise it returns true,
advances the active season one step in the cyclic order and sets the anchor to
now; with cooldown 500, after success at t=0 a request at t=499 fails with no
state change and a request at t=500 succeeds, advancing exactly one step. -/
theorem cycle_spec :
    (∀ (sm : SeasonManager) (now : ℤ),
      (now - sm.last_cycle_ms < sm.cooldown_ms → sm.cycle now = (false, sm)) ∧
      (sm.cooldown_ms ≤ now - sm.last_cycle_ms →
        (sm.cycle now).1 = true ∧
        (sm.cycle now).2.last_cycle_ms = now ∧
        (sm.cycle now).2.current_index = (sm.current_index + 1) % 4 ∧
        (sm.current_index < 4 → seasonCurrent (sm.cycle now).2 = nextSeason (seasonCurrent sm)))) ∧
    ((mkSeasonManager 500).cycle 0).1 = true ∧
    (((mkSeasonManager 500).cycle 0).2.cycle 499) = (false, ((mkSeasonManager 500).cycle 0).2) ∧
    ((((mkSeasonManager 500).cycle 0).2.cycle 500)).1 = true ∧
    ((((mkSeasonManager 500).cycle 0).2.cycle 500)).2.current_index = 2 ∧
    seasonCurrent ((((mkSeasonManager 500).cycle 0).2.cycle 500)).2
      = nextSeason (seasonCurrent ((mkSeasonManager 500).cycle 0).2) := by
  refine ⟨?_, by decide, by decide, by decide, by decide, by decide⟩
  intro sm now
  constructor
  · intro h
    have hc : sm.can_cycle now = false := by
      simp [SeasonManager.can_cycle, not_le.2 h]
    simp [SeasonManager.cycle, hc]
  · intro h
    have hc : sm.can_cycle now = true := by
      simp [SeasonManager.can_cycle, h]
    refine ⟨by simp [SeasonManager.cycle, hc], by simp [SeasonManager.cycle, hc],
      by simp [SeasonManager.cycle, hc, SEASON_ORDER], ?_⟩
    intro hi
    simp only [SeasonManager.cycle, hc, if_pos, seasonCurrent]
    exact seasonOrder_next sm.current_index hi

/- C3 witness: a concrete blocked request. -/
theorem cycle_spec_witness :
    ((499 : ℤ) - ((mkSeasonManager 500).cycle 0).2.last_cycle_ms < ((mkSeasonManager 500).cycle 0).2.cooldown_ms) ∧
    ((mkSeasonManager 500).cycle 0).2.cycle 499 = (false, ((mkSeasonManager 500).cycle 0).2) :=
  ⟨by decide, (cycle_spec.1 ((mkSeasonManager 500).cycle 0).2 499).1 (by decide)⟩

/-- Claim C4: hazardActive(S, brittleThorns) is true iff S ∈ {Summer, Autumn}
or S = Spring with brittleThorns set; it is false for Winter regardless of
brittleThorns and false for Spring without brittleThorns. -/
theorem hazard_active_spec (room : RoomChunk) (s : Season) (b : Bool) :
    (room.hazard_active s b = true ↔
      (s = Season.summer ∨ s = Season.autumn ∨ (s = Season.spring ∧ b = true))) ∧
    room.hazard_active Season.winter b = false ∧
    room.hazard_active Season.spring false = false := by
  refine ⟨?_, ?_, ?_⟩
  · cases s <;> cases b <;> simp [RoomChunk.hazard_active]
  · cases b <;> simp [RoomChunk.hazard_active]
  · simp [RoomChunk.hazard_active]

/-- Claim C5: activePlatforms(S) is exactly the base rectangles, plus the
seasonal rectangles whose tag set contains S, plus the water rectangles iff
S = Winter; in particular a seasonal platform tagged only Winter is included
iff S = Winter. -/
theorem active_platforms_spec (room : RoomChunk) (s : Season) :
    (∀ r : Rect, r ∈ room.active_platforms s ↔
      r ∈ room.base_platforms ∨
      (∃ e, e ∈ room.seasonal_platforms ∧ s ∈ e.seasons ∧ e.rect = r) ∨
      (s = Season.winter ∧ r ∈ room.water)) ∧
    (∀ e : SeasonalPlatform, room.seasonal_platforms = [e] → e.seasons = [Season.winter] →
      e.rect ∉ room.base_platforms → e.rect ∉ room.water →
      (e.rect ∈ room.active_platforms s ↔ s = Season.winter)) := by
  have hmem : ∀ r : Rect, r ∈ room.active_platforms s ↔
      r ∈ room.base_platforms ∨
      (∃ e, e ∈ room.seasonal_platforms ∧ s ∈ e.seasons ∧ e.rect = r) ∨
      (s = Season.winter ∧ r ∈ room.water) := by
    intro r
    by_cases hw : s = Season.winter <;>
      simp [RoomChunk.active_platforms, List.mem_append, seasonal_filter_mem, hw]
  refine ⟨hmem, ?_⟩
  intro e hl hs hb hw
  rw [hmem e.rect]
  constructor
  · rintro (h | ⟨e2, he2, hse2, _⟩ | ⟨hwin, hmem2⟩)
    · exact absurd h hb
    · rw [hl, List.mem_singleton] at he2
      rw [he2, hs, List.mem_singleton] at hse2
      exact hse2
    · exact absurd hmem2 hw
  · intro hwin
    exact Or.inr (Or.inl ⟨e, by simp [hl], by simp [hs, hwin], rfl⟩)

/- C5 witness: a Winter-only ice platform is present exactly in Winter. -/
theorem active_platforms_spec_witness :
    wRoomIce.seasonal_platforms = [wIceEntry] ∧ wIceEntry.seasons = [Season.winter] ∧
    wIceEntry.rect ∉ wRoomIce.base_platforms ∧ wIceEntry.rect ∉ wRoomIce.water ∧
    (wIceEntry.rect ∈ wRoomIce.active_platforms Season.summer ↔ Season.summer = Season.winter) :=
  ⟨rfl, rfl, by decide, by decide,
    (active_platforms_spec wRoomIce Season.summer).2 wIceEntry rfl rfl (by decide) (by decide)⟩

/-- Claim C6: modifiers resolution is order independent: for every
duplicate-free list of selected upgrade identifiers and every permutation of
it, folding over the identity defaults yields the same Modifiers value. -/
theorem modifiers_order_independent (l1 l2 : List String)
    (_hnd : l1.Nodup) (hp : List.Perm l1 l2) :
    seeds_to_modifiers l1 = seeds_to_modifiers l2 :=
  foldl_perm_of_comm seed_transform_comm hp modifierDefaults

/- C6 witness: two orders of the same two-seed selection. -/
theorem modifiers_order_independent_witness :
    List.Nodup ["Swiftstride", "Tailwind"] ∧
    List.Perm ["Swiftstride", "Tailwind"] ["Tailwind", "Swiftstride"] ∧
    seeds_to_modifiers ["Swiftstride", "Tailwind"] = seeds_to_modifiers ["Tailwind", "Swiftstride"] :=
  ⟨by decide, List.Perm.swap "Tailwind" "Swiftstride" [],
    modifiers_order_independent _ _ (by decide) (List.Perm.swap "Tailwind" "Swiftstride" [])⟩

/- Size preservation through the collision-resolution folds. -/

lemma horizStep_h (vx : ℚ) (r pl : Rect) : (horizStep vx r pl).h = r.h := by
  unfold horizStep; split_ifs <;> rfl

lemma horizResolve_h (vx : ℚ) (plats : List Rect) : ∀ r : Rect, (horizResolve vx plats r).h = r.h := by
  induction plats with
  | nil => intro r; rfl
  | cons pl pls ih =>
      intro r
      show (pls.foldl (horizStep vx) (horizStep vx r pl)).h = r.h
      exact (ih (horizStep vx r pl)).trans (horizStep_h vx r pl)

lemma vertStep_h (s : Rect × ℚ × Bool) (pl : Rect) : (vertStep s pl).1.h = s.1.h := by
  unfold vertStep; split_ifs <;> rfl

lemma vertResolve_h (plats : List Rect) : ∀ s : Rect × ℚ × Bool, (vertResolve plats s).1.h = s.1.h := by
  induction plats with
  | nil => intro s; rfl
  | cons pl pls ih =>
      intro s
      show (pls.foldl vertStep (vertStep s pl)).1.h = s.1.h
      exact (ih (vertStep s pl)).trans (vertStep_h s pl)

lemma preVertRect_h (keys : Keys) (room : RoomChunk) (season : Season) (mods : Modifiers) (p : Player) :
    (Player.preVertRect keys room season mods p).h = p.rect.h := by
  unfold Player.preVertRect Rect.moveY
  show (horizResolve (preVelX keys room season mods p.rect) (room.active_platforms season)
      (Rect.moveX p.rect (pyround (preVelX keys room season mods p.rect)))).h = p.rect.h
  rw [horizResolve_h]
  rfl

lemma updateVert_h (keys : Keys) (room : RoomChunk) (season : Season) (mods : Modifiers) (p : Player) :
    (Player.updateVert keys room season mods p).1.h = p.rect.h := by
  unfold Player.updateVert
  rw [vertResolve_h]
  exact preVertRect_h keys room season mods p

/- The clamp never places the rect lower than the bounding band allows. -/
lemma clampCoord_le (x w bx bw : ℤ) (hw : w < bw) : clampCoord x w bx bw ≤ bx + bw - w := by
  unfold clampCoord
  split_ifs <;> omega

/-- Claim C1 (code_bug evidence): the claim says falling out of the world
through the bottom actually occurs as a fail condition, but after any physics
step the clamp of line 154 has already bounded the actor's top edge by 588,
strictly below the fail threshold HEIGHT + 80 = 620 of line 344, so the
fell-out-of-world Failed transition can never fire on any state or input. -/
theorem fall_out_fail_unreachable (keys : Keys) (room : RoomChunk) (season : Season)
    (mods : Modifiers) (p : Player) (hp : p.rect.h = 52) :
    ¬ (HEIGHT + 80 < (Player.update keys room season mods p).1.rect.top) := by
  have hh : (Player.updateVert keys room season mods p).1.h = 52 := by
    rw [updateVert_h]; exact hp
  have hrect : (Player.update keys room season mods p).1.rect
      = clampRect (Player.updateVert keys room season mods p).1 worldBand := rfl
  rw [hrect]
  show ¬ (HEIGHT + 80 < clampCoord (Player.updateVert keys room season mods p).1.y
    (Player.updateVert keys room season mods p).1.h worldBand.y worldBand.h)
  rw [hh]
  have hb : worldBand.y = -200 := rfl
  have hb2 : worldBand.h = 840 := by
    show HEIGHT + 300 = 840
    rfl
  rw [hb, hb2]
  have hle := clampCoord_le (Player.updateVert keys room season mods p).1.y 52 (-200) 840 (by norm_num)
  have hH : HEIGHT = 540 := rfl
  omega

/- C1 witness: concrete instantiation of the unreachability theorem. -/
theorem fall_out_fail_unreachable_witness :
    pGround.rect.h = 52 ∧
    ¬ (HEIGHT + 80 < (Player.update noKeys wRoom Season.spring modifierDefaults pGround).1.rect.top) :=
  ⟨rfl, fall_out_fail_unreachable noKeys wRoom Season.spring modifierDefaults pGround rfl⟩

/-- Claim C2 counterexample: a SPACE keydown while grounded leaves on_ground
equal to true, refuting the claim that the jump immediately sets grounded to
false. -/
theorem jump_grounded_cex :
    gsW.player.on_ground = true ∧
    (handleGameplayInput (GEvent.keydown GKey.kspace) 0 gsW).player.on_ground = true ∧
    ¬ ((handleGameplayInput (GEvent.keydown GKey.kspace) 0 gsW).player.on_ground = false) := by
  refine ⟨rfl, rfl, ?_⟩
  decide

/-- Claim C2 amended: a jump input while grounded sets velocityY to
-(baseJump * jumpMultiplier) and changes nothing else, leaving grounded still
true (grounded is cleared only by the next physics step's vertical pass); a
jump input while grounded is false has no effect. -/
theorem jump_amended_spec (gs : GameState) (now : ℤ) :
    (gs.player.on_ground = true →
      handleGameplayInput (GEvent.keydown GKey.kspace) now gs =
        ⟨gs.status, gs.start_ms, gs.end_ms, gs.room_index, gs.rooms, gs.current_room, gs.season,
         ⟨gs.player.rect, gs.player.vel_x, -(base_jump * gs.modifiers.jump_mult), gs.player.on_ground⟩,
         gs.modifiers⟩ ∧
      (handleGameplayInput (GEvent.keydown GKey.kspace) now gs).player.on_ground = true) ∧
    (gs.player.on_ground = false →
      handleGameplayInput (GEvent.keydown GKey.kspace) now gs = gs) := by
  constructor
  · intro h
    constructor
    · simp [handleGameplayInput, h]
    · simp [handleGameplayInput, h]
  · intro h
    simp [handleGameplayInput, h]

/- C2 amended witness. -/
theorem jump_amended_spec_witness :
    gsW.player.on_ground = true ∧
    (handleGameplayInput (GEvent.keydown GKey.kspace) 7 gsW).player.on_ground = true :=
  ⟨rfl, ((jump_amended_spec gsW 7).1 rfl).2⟩

/- Landing: once vel_y is zeroed, the rest of the vertical loop is inert. -/
lemma vertResolve_zero (plats : List Rect) : ∀ (r : Rect) (g : Bool),
    vertResolve plats (r, 0, g) = (r, 0, g) := by
  induction plats with
  | nil => intro r g; rfl
  | cons pl pls ih =>
      intro r g
      show pls.foldl vertStep (vertStep (r, 0, g) pl) = (r, 0, g)
      have hstep : vertStep (r, (0 : ℚ), g) pl = (r, 0, g) := by
        simp [vertStep]
      rw [hstep]
      exact ih r g

/- Landing: with positive vertical velocity, the vertical loop snaps the
rect's bottom to the top of the first overlapped platform, zeroes vel_y and
sets on_ground. -/
lemma vertResolve_land (plats : List Rect) : ∀ (r : Rect) (vy : ℚ) (g : Bool) (q : Rect),
    0 < vy → plats.find? (fun pl => collide r pl) = some q →
    vertResolve plats (r, vy, g) = (r.setBottom q.top, 0, true) := by
  induction plats with
  | nil =>
      intro r vy g q _ hq
      simp [List.find?] at hq
  | cons pl pls ih =>
      intro r vy g q hvy hq
      by_cases hc : collide r pl = true
      · have hql : pl = q := by
          rw [List.find?_cons_of_pos _ hc] at hq
          exact Option.some.inj hq
        have hstep : vertStep (r, vy, g) pl = (r.setBottom pl.top, 0, true) := by
          unfold vertStep
          rw [if_pos hc, if_pos hvy]
        show pls.foldl vertStep (vertStep (r, vy, g) pl) = (r.setBottom q.top, 0, true)
        rw [hstep, hql]
        exact vertResolve_zero pls (r.setBottom q.top) true
      · have hq2 : pls.find? (fun pl2 => collide r pl2) = some q := by
          rw [List.find?_cons_of_neg _ (by simpa using hc)] at hq
          exact hq
        have hstep : vertStep (r, vy, g) pl = (r, vy, g) := by
          unfold vertStep
          rw [if_neg hc]
        show pls.foldl vertStep (vertStep (r, vy, g) pl) = (r.setBottom q.top, 0, true)
        rw [hstep]
        exact ih r vy g q hvy hq2

/-- Claim C7: a physics step in which the actor falls (velocityY > 0 before
the vertical resolution) and the vertical pass overlaps an active platform
ends grounded with velocityY = 0 and the bottom edge snapped to the first
overlapped platform's top; on the following step with no jump input the
step-4 gravity update makes velocityY strictly positive again. -/
theorem landing_grounded_spec (keys : Keys) (room : RoomChunk) (season : Season)
    (mods : Modifiers) (p : Player) (q : Rect)
    (hp : p.rect.h = 52)
    (hgm : 0 < mods.gravity_mult)
    (hvy : 0 < gravVelY mods p.vel_y)
    (hq : (room.active_platforms season).find?
      (fun pl => collide (Player.preVertRect keys room season mods p) pl) = some q)
    (hband1 : -200 ≤ q.top - 52) (hband2 : q.top ≤ 640) :
    (Player.update keys room season mods p).1.on_ground = true ∧
    (Player.update keys room season mods p).1.vel_y = 0 ∧
    (Player.update keys room season mods p).1.rect.bottom = q.top ∧
    0 < gravVelY mods (Player.update keys room season mods p).1.vel_y := by
  have ht : Player.updateVert keys room season mods p
      = ((Player.preVertRect keys room season mods p).setBottom q.top, 0, true) := by
    unfold Player.updateVert
    exact vertResolve_land (room.active_platforms season)
      (Player.preVertRect keys room season mods p) (gravVelY mods p.vel_y) false q hvy hq
  have hog : (Player.update keys room season mods p).1.on_ground
      = (Player.updateVert keys room season mods p).2.2 := rfl
  have hvel : (Player.update keys room season mods p).1.vel_y
      = (Player.updateVert keys room season mods p).2.1 := rfl
  have hrect : (Player.update keys room season mods p).1.rect
      = clampRect (Player.updateVert keys room season mods p).1 worldBand := rfl
  have hv0 : (Player.update keys room season mods p).1.vel_y = 0 := by rw [hvel, ht]
  refine ⟨by rw [hog, ht], hv0, ?_, ?_⟩
  · rw [hrect, ht]
    have hh : (Player.preVertRect keys room season mods p).h = 52 := by
      rw [preVertRect_h]; exact hp
    show clampCoord ((Player.preVertRect keys room season mods p).setBottom q.top).y
        ((Player.preVertRect keys room season mods p).setBottom q.top).h worldBand.y worldBand.h
      + ((Player.preVertRect keys room season mods p).setBottom q.top).h = q.top
    have hsb : ((Player.preVertRect keys room season mods p).setBottom q.top).y
        = q.top - (Player.preVertRect keys room season mods p).h := rfl
    have hsh : ((Player.preVertRect keys room season mods p).setBottom q.top).h
        = (Player.preVertRect keys room season mods p).h := rfl
    rw [hsb, hsh, hh]
    have hb : worldBand.y = -200 := rfl
    have hb2 : worldBand.h = 840 := by
      show HEIGHT + 300 = 840
      rfl
    rw [hb, hb2]
    unfold clampCoord
    split_ifs <;> omega
  · rw [hv0]
    unfold gravVelY
    have hpos : (0 : ℚ) < base_gravity * mods.gravity_mult :=
      mul_pos (by norm_num [base_gravity]) hgm
    exact lt_min (by simpa using hpos) (by norm_num [max_fall])

lemma wit_gravVelY_pFall : gravVelY wrMods pFall.vel_y = 15 := by
  unfold gravVelY
  rw [show pFall.vel_y + base_gravity * wrMods.gravity_mult = 34 by
    norm_num [pFall, wrMods, base_gravity]]
  rw [show max_fall = 15 by norm_num [max_fall]]
  exact min_eq_right (by norm_num)

lemma wit_preVert_pFall :
    Player.preVertRect noKeys wRoom Season.spring wrMods pFall = ⟨100, 460, 34, 52⟩ := by
  unfold Player.preVertRect
  rw [preVelX_wRoom, wit_gravVelY_pFall]
  rw [show pyround (0 : ℚ) = 0 by
        rw [show (0 : ℚ) = ((0 : ℤ) : ℚ) by norm_num]; exact pyround_intCast 0,
      show pyround (15 : ℚ) = 15 by
        rw [show (15 : ℚ) = ((15 : ℤ) : ℚ) by norm_num]; exact pyround_intCast 15]
  decide

/- C7 witness: a concrete fall of one frame onto the floor platform. -/
theorem landing_grounded_spec_witness :
    (0 : ℚ) < gravVelY wrMods pFall.vel_y ∧
    (wRoom.active_platforms Season.spring).find?
      (fun pl => collide (Player.preVertRect noKeys wRoom Season.spring wrMods pFall) pl) = some wFloor ∧
    (Player.update noKeys wRoom Season.spring wrMods pFall).1.on_ground = true ∧
    (Player.update noKeys wRoom Season.spring wrMods pFall).1.vel_y = 0 ∧
    (Player.update noKeys wRoom Season.spring wrMods pFall).1.rect.bottom = wFloor.top ∧
    0 < gravVelY wrMods (Player.update noKeys wRoom Season.spring wrMods pFall).1.vel_y := by
  have hvy : (0 : ℚ) < gravVelY wrMods pFall.vel_y := by
    rw [wit_gravVelY_pFall]; norm_num
  have hq : (wRoom.active_platforms Season.spring).find?
      (fun pl => collide (Player.preVertRect noKeys wRoom Season.spring wrMods pFall) pl) = some wFloor := by
    rw [wit_preVert_pFall]; decide
  refine ⟨hvy, hq, ?_⟩
  exact landing_grounded_spec noKeys wRoom Season.spring wrMods pFall wFloor rfl
    (by norm_num [wrMods]) hvy hq (by decide) (by decide)

/- seasonTick only decays the cosmetic flash field. -/

lemma seasonTick_current_index (sm : SeasonManager) : (seasonTick sm).current_index = sm.current_index := by
  unfold seasonTick; split_ifs <;> rfl

lemma seasonTick_last (sm : SeasonManager) : (seasonTick sm).last_cycle_ms = sm.last_cycle_ms := by
  unfold seasonTick; split_ifs <;> rfl

lemma seasonTick_cooldown (sm : SeasonManager) : (seasonTick sm).cooldown_ms = sm.cooldown_ms := by
  unfold seasonTick; split_ifs <;> rfl

/-- Claim C8: an InProgress frame with no hazard or out-of-world trigger and
an exit overlap increments the room index by exactly one; past the last room
the outcome becomes Won with the end timestamp recorded, otherwise the actor
is reset to the fixed spawn point with zero velocities and grounded false,
while the SeasonCycle state (active index, cooldown anchor, cooldown) and the
Modifiers are unchanged. -/
theorem advance_room_spec (keys : Keys) (now : ℤ) (gs : GameState)
    (_hplay : gs.status = GameStatus.playing)
    (hhaz : ¬(gs.current_room.hazard_active (seasonCurrent gs.season) gs.modifiers.brittle_thorns = true ∧
      (gs.current_room.hazards.any fun hz => collide (updatedPlayer keys gs).rect hz) = true))
    (hfall : ¬(HEIGHT + 80 < (updatedPlayer keys gs).rect.top))
    (hexit : collide (updatedPlayer keys gs).rect gs.current_room.exit_zone = true) :
    (updateGameplay keys now gs).room_index = gs.room_index + 1 ∧
    (updateGameplay keys now gs).modifiers = gs.modifiers ∧
    (updateGameplay keys now gs).season.current_index = gs.season.current_index ∧
    (updateGameplay keys now gs).season.last_cycle_ms = gs.season.last_cycle_ms ∧
    (updateGameplay keys now gs).season.cooldown_ms = gs.season.cooldown_ms ∧
    (gs.rooms.length ≤ gs.room_index + 1 →
      (updateGameplay keys now gs).status = GameStatus.won ∧ (updateGameplay keys now gs).end_ms = now) ∧
    (gs.room_index + 1 < gs.rooms.length →
      (updateGameplay keys now gs).player = playerReset 70 420 (updatedPlayer keys gs) ∧
      (updateGameplay keys now gs).status = gs.status ∧
      (updateGameplay keys now gs).current_room = gs.rooms.getD (gs.room_index + 1) gs.current_room) := by
  have hred : updateGameplay keys now gs =
      (let gs2 := advanceRoom now
        ⟨gs.status, gs.start_ms, gs.end_ms, gs.room_index, gs.rooms, gs.current_room, gs.season,
          updatedPlayer keys gs, gs.modifiers⟩
       ⟨gs2.status, gs2.start_ms, gs2.end_ms, gs2.room_index, gs2.rooms, gs2.current_room,
        seasonTick gs2.season, gs2.player, gs2.modifiers⟩) := by
    simp only [updateGameplay]
    rw [if_neg hhaz, if_neg hfall, if_pos hexit]
  rw [hred]
  by_cases hlen : gs.rooms.length ≤ gs.room_index + 1
  · have hadv : advanceRoom now
        ⟨gs.status, gs.start_ms, gs.end_ms, gs.room_index, gs.rooms, gs.current_room, gs.season,
          updatedPlayer keys gs, gs.modifiers⟩ =
        ⟨GameStatus.won, gs.start_ms, now, gs.room_index + 1, gs.rooms, gs.current_room, gs.season,
          updatedPlayer keys gs, gs.modifiers⟩ := by
      unfold advanceRoom
      rw [if_pos hlen]
    rw [hadv]
    refine ⟨rfl, rfl, seasonTick_current_index _, seasonTick_last _, seasonTick_cooldown _, ?_, ?_⟩
    · intro _; exact ⟨rfl, rfl⟩
    · intro h2; omega
  · have hadv : advanceRoom now
        ⟨gs.status, gs.start_ms, gs.end_ms, gs.room_index, gs.rooms, gs.current_room, gs.season,
          updatedPlayer keys gs, gs.modifiers⟩ =
        ⟨gs.status, gs.start_ms, gs.end_ms, gs.room_index + 1, gs.rooms,
          gs.rooms.getD (gs.room_index + 1) gs.current_room, gs.season,
          playerReset 70 420 (updatedPlayer keys gs), gs.modifiers⟩ := by
      unfold advanceRoom
      rw [if_neg hlen]
    rw [hadv]
    refine ⟨rfl, rfl, seasonTick_current_index _, seasonTick_last _, seasonTick_cooldown _, ?_, ?_⟩
    · intro h2; omega
    · intro _; exact ⟨rfl, rfl, rfl⟩

lemma wit_gravVelY_pGround : gravVelY wrMods pGround.vel_y = 15 := by
  unfold gravVelY
  rw [show pGround.vel_y + base_gravity * wrMods.gravity_mult = 29 by
    norm_num [pGround, wrMods, base_gravity]]
  rw [show max_fall = 15 by norm_num [max_fall]]
  exact min_eq_right (by norm_num)

lemma wit_preVert_pGround :
    Player.preVertRect noKeys wRoom Season.spring wrMods pGround = ⟨100, 461, 34, 52⟩ := by
  unfold Player.preVertRect
  rw [preVelX_wRoom, wit_gravVelY_pGround]
  rw [show pyround (0 : ℚ) = 0 by
        rw [show (0 : ℚ) = ((0 : ℤ) : ℚ) by norm_num]; exact pyround_intCast 0,
      show pyround (15 : ℚ) = 15 by
        rw [show (15 : ℚ) = ((15 : ℤ) : ℚ) by norm_num]; exact pyround_intCast 15]
  decide

lemma wit_updateVert_pGround :
    Player.updateVert noKeys wRoom Season.spring wrMods pGround = (⟨100, 446, 34, 52⟩, 0, true) := by
  unfold Player.updateVert
  rw [wit_preVert_pGround, wit_gravVelY_pGround]
  decide

lemma wit_update_pGround : (Player.update noKeys wRoom Season.spring wrMods pGround).1 = pGround := by
  simp only [Player.update]
  rw [wit_updateVert_pGround, preVelX_wRoom]
  decide

lemma wit_updatedPlayer : updatedPlayer noKeys gsP = pGround := by
  show (Player.update noKeys wRoom Season.spring wrMods pGround).1 = pGround
  exact wit_update_pGround

/- C8 witness: a concrete exit overlap in a 2-room run. -/
theorem advance_room_spec_witness :
    gsP.status = GameStatus.playing ∧
    (¬(gsP.current_room.hazard_active (seasonCurrent gsP.season) gsP.modifiers.brittle_thorns = true ∧
      (gsP.current_room.hazards.any fun hz => collide (updatedPlayer noKeys gsP).rect hz) = true)) ∧
    (¬(HEIGHT + 80 < (updatedPlayer noKeys gsP).rect.top)) ∧
    collide (updatedPlayer noKeys gsP).rect gsP.current_room.exit_zone = true ∧
    ((updateGameplay noKeys 3 gsP).room_index = gsP.room_index + 1 ∧
     (updateGameplay noKeys 3 gsP).modifiers = gsP.modifiers ∧
     (updateGameplay noKeys 3 gsP).season.current_index = gsP.season.current_index ∧
     (updateGameplay noKeys 3 gsP).season.last_cycle_ms = gsP.season.last_cycle_ms ∧
     (updateGameplay noKeys 3 gsP).season.cooldown_ms = gsP.season.cooldown_ms ∧
     (gsP.rooms.length ≤ gsP.room_index + 1 →
       (updateGameplay noKeys 3 gsP).status = GameStatus.won ∧ (updateGameplay noKeys 3 gsP).end_ms = 3) ∧
     (gsP.room_index + 1 < gsP.rooms.length →
       (updateGameplay noKeys 3 gsP).player = playerReset 70 420 (updatedPlayer noKeys gsP) ∧
       (updateGameplay noKeys 3 gsP).status = gsP.status ∧
       (updateGameplay noKeys 3 gsP).current_room = gsP.rooms.getD (gsP.room_index + 1) gsP.current_room)) := by
  have h1 : gsP.status = GameStatus.playing := rfl
  have h2 : ¬(gsP.current_room.hazard_active (seasonCurrent gsP.season) gsP.modifiers.brittle_thorns = true ∧
      (gsP.current_room.hazards.any fun hz => collide (updatedPlayer noKeys gsP).rect hz) = true) := by
    rw [wit_updatedPlayer]; decide
  have h3 : ¬(HEIGHT + 80 < (updatedPlayer noKeys gsP).rect.top) := by
    rw [wit_updatedPlayer]; decide
  have h4 : collide (updatedPlayer noKeys gsP).rect gsP.current_room.exit_zone = true := by
    rw [wit_updatedPlayer]; decide
  exact ⟨h1, h2, h3, h4, advance_room_spec noKeys 3 gsP h1 h2 h3 h4⟩

/-- Claim C9: once the outcome is Won or Failed, the per-frame step (input
handling, physics, outcome checks) changes nothing — outcome, actor and room
index included — until an explicit run restart; and failRun moves the status
to Failed only from InProgress. -/
theorem terminal_freeze_spec (gs : GameState) (events : List GEvent) (keys : Keys) (now : ℤ) :
    (gs.status ≠ GameStatus.playing → stepFrame events keys now gs = gs) ∧
    ((failRun now gs).status = GameStatus.failed →
      gs.status = GameStatus.playing ∨ gs.status = GameStatus.failed) := by
  constructor
  · intro h
    have hfold : events.foldl
        (fun g e => if g.status = GameStatus.playing then handleGameplayInput e now g else g) gs = gs := by
      induction events with
      | nil => rfl
      | cons e es ih =>
          simp only [List.foldl_cons, if_neg h]
          exact ih
    unfold stepFrame
    rw [hfold]
    unfold stepFrameAux
    rw [if_neg h]
  · intro h
    by_cases hp : gs.status = GameStatus.playing
    · exact Or.inl hp
    · right
      unfold failRun at h
      rw [if_neg hp] at h
      exact h

/- C9 witness: a won state is frozen by the frame step. -/
theorem terminal_freeze_spec_witness :
    gsWon.status ≠ GameStatus.playing ∧
    stepFrame [GEvent.keydown GKey.kspace] noKeys 5 gsWon = gsWon :=
  ⟨by decide, (terminal_freeze_spec gsWon [GEvent.keydown GKey.kspace] noKeys 5).1 (by decide)⟩

/- Ice-slip independence: the physics step writes mods.ice_slip only into
vel_x, and never reads the incoming vel_x, so rect, vel_y and on_ground
agree across runs that differ only in ice_slip. -/
lemma update_agree (keys : Keys) (room : RoomChunk) (season : Season)
    (m1 m2 : Modifiers) (p1 p2 : Player)
    (h1 : m1.speed_mult = m2.speed_mult) (h2 : m1.gravity_mult = m2.gravity_mult)
    (h3 : m1.jump_mult = m2.jump_mult) (h4 : m1.water_drag_mult = m2.water_drag_mult)
    (h5 : m1.wind_push = m2.wind_push) (h6 : m1.brittle_thorns = m2.brittle_thorns)
    (h7 : m1.slow_cycle = m2.slow_cycle)
    (hr : p1.rect = p2.rect) (hy : p1.vel_y = p2.vel_y) (hg : p1.on_ground = p2.on_ground) :
    (Player.update keys room season m1 p1).1.rect = (Player.update keys room season m2 p2).1.rect ∧
    (Player.update keys room season m1 p1).1.vel_y = (Player.update keys room season m2 p2).1.vel_y ∧
    (Player.update keys room season m1 p1).1.on_ground = (Player.update keys room season m2 p2).1.on_ground := by
  cases m1
  cases m2
  cases p1
  cases p2
  dsimp only at h1 h2 h3 h4 h5 h6 h7 hr hy hg
  subst h1; subst h2; subst h3; subst h4; subst h5; subst h6; subst h7
  subst hr; subst hy; subst hg
  exact ⟨rfl, rfl, rfl⟩

lemma stepWithInput_agree (m1 m2 : Modifiers) (fi : FrameInput) (p1 p2 : Player)
    (h1 : m1.speed_mult = m2.speed_mult) (h2 : m1.gravity_mult = m2.gravity_mult)
    (h3 : m1.jump_mult = m2.jump_mult) (h4 : m1.water_drag_mult = m2.water_drag_mult)
    (h5 : m1.wind_push = m2.wind_push) (h6 : m1.brittle_thorns = m2.brittle_thorns)
    (h7 : m1.slow_cycle = m2.slow_cycle)
    (hr : p1.rect = p2.rect) (hy : p1.vel_y = p2.vel_y) (hg : p1.on_ground = p2.on_ground) :
    (stepWithInput m1 fi p1).rect = (stepWithInput m2 fi p2).rect ∧
    (stepWithInput m1 fi p1).vel_y = (stepWithInput m2 fi p2).vel_y ∧
    (stepWithInput m1 fi p1).on_ground = (stepWithInput m2 fi p2).on_ground := by
  unfold stepWithInput
  by_cases hj : fi.jump = true ∧ p1.on_ground = true
  · have hj2 : fi.jump = true ∧ p2.on_ground = true := ⟨hj.1, by rw [← hg]; exact hj.2⟩
    rw [if_pos hj, if_pos hj2]
    exact update_agree fi.keys fi.room fi.season m1 m2 _ _ h1 h2 h3 h4 h5 h6 h7
      (by exact hr) (by rw [h3]) (by exact hg)
  · have hj2 : ¬(fi.jump = true ∧ p2.on_ground = true) := by
      intro hc
      exact hj ⟨hc.1, by rw [hg]; exact hc.2⟩
    rw [if_neg hj, if_neg hj2]
    exact update_agree fi.keys fi.room fi.season m1 m2 p1 p2 h1 h2 h3 h4 h5 h6 h7 hr hy hg

lemma runFrames_agree (m1 m2 : Modifiers)
    (h1 : m1.speed_mult = m2.speed_mult) (h2 : m1.gravity_mult = m2.gravity_mult)
    (h3 : m1.jump_mult = m2.jump_mult) (h4 : m1.water_drag_mult = m2.water_drag_mult)
    (h5 : m1.wind_push = m2.wind_push) (h6 : m1.brittle_thorns = m2.brittle_thorns)
    (h7 : m1.slow_cycle = m2.slow_cycle) :
    ∀ (fis : List FrameInput) (p1 p2 : Player),
      p1.rect = p2.rect → p1.vel_y = p2.vel_y → p1.on_ground = p2.on_ground →
      (runFrames m1 fis p1).rect = (runFrames m2 fis p2).rect ∧
      (runFrames m1 fis p1).vel_y = (runFrames m2 fis p2).vel_y ∧
      (runFrames m1 fis p1).on_ground = (runFrames m2 fis p2).on_ground := by
  intro fis
  induction fis with
  | nil => intro p1 p2 hr hy hg; exact ⟨hr, hy, hg⟩
  | cons fi fis ih =>
      intro p1 p2 hr hy hg
      obtain ⟨a, b, c⟩ := stepWithInput_agree m1 m2 fi p1 p2 h1 h2 h3 h4 h5 h6 h7 hr hy hg
      simpa only [runFrames, List.foldl_cons] using
        ih (stepWithInput m1 fi p1) (stepWithInput m2 fi p2) a b c

/-- Claim C10: the actor's trajectory is independent of the iceSlip modifier:
for any input sequence, two runs of the per-frame physics step that differ
only in modifiers.ice_slip produce identical position rect, velocityY and
grounded on every frame (the slip scaling only writes a vel_x value that is
overwritten from input before it is ever used for movement). -/
theorem ice_slip_independence (fis : List FrameInput) (m1 m2 : Modifiers) (p1 p2 : Player)
    (h1 : m1.speed_mult = m2.speed_mult) (h2 : m1.gravity_mult = m2.gravity_mult)
    (h3 : m1.jump_mult = m2.jump_mult) (h4 : m1.water_drag_mult = m2.water_drag_mult)
    (h5 : m1.wind_push = m2.wind_push) (h6 : m1.brittle_thorns = m2.brittle_thorns)
    (h7 : m1.slow_cycle = m2.slow_cycle)
    (hr : p1.rect = p2.rect) (hy : p1.vel_y = p2.vel_y) (hg : p1.on_ground = p2.on_ground) :
    (runFrames m1 fis p1).rect = (runFrames m2 fis p2).rect ∧
    (runFrames m1 fis p1).vel_y = (runFrames m2 fis p2).vel_y ∧
    (runFrames m1 fis p1).on_ground = (runFrames m2 fis p2).on_ground :=
  runFrames_agree m1 m2 h1 h2 h3 h4 h5 h6 h7 fis p1 p2 hr hy hg

/- C10 witness: defaults versus a halved ice_slip over a Winter frame. -/
theorem ice_slip_independence_witness :
    modifierDefaults.speed_mult = slipMods.speed_mult ∧
    modifierDefaults.ice_slip ≠ slipMods.ice_slip ∧
    (runFrames modifierDefaults [wInput] pGround).rect = (runFrames slipMods [wInput] pGround).rect ∧
    (runFrames modifierDefaults [wInput] pGround).vel_y = (runFrames slipMods [wInput] pGround).vel_y ∧
    (runFrames modifierDefaults [wInput] pGround).on_ground = (runFrames slipMods [wInput] pGround).on_ground :=
  ⟨rfl, by norm_num [modifierDefaults, slipMods],
    ice_slip_independence [wInput] modifierDefaults slipMods pGround pGround
      rfl rfl rfl rfl rfl rfl rfl rfl rfl rfl⟩

end FracturedForest
